import Mathlib

/-!
Verification of the ZAD Education Platform against its specification.

This file shallowly embeds the parts of the Python code base that the
claims are about (session state, ORM queries over in-memory row lists,
the i18n lookup, the auth rate limiter, the RAG engine's store paths)
and proves or refutes each claim about them.  Database tables are lists
of rows, the Streamlit session is a record of optional fields mirroring
the dictionary keys the code uses, and external libraries (bcrypt,
FAISS, document loaders) are oracles passed in as parameters.
-/

namespace ZAD

/-! ## Internationalisation (src/i18n.py) -/

/-- The TRANSLATIONS dictionary of src/i18n.py: each key maps to a
(language, text) association list, mirroring the nested Python dict. -/
def TRANSLATIONS : List (String × List (String × String)) := [
  ("app_title", [("en", "🎓 ZAD Education Platform"), ("ar", "🎓 منصة زاد التعليمية")]),
  ("login", [("en", "Login"), ("ar", "تسجيل الدخول")]),
  ("email", [("en", "Email"), ("ar", "البريد الإلكتروني")]),
  ("password", [("en", "Password"), ("ar", "كلمة المرور")]),
  ("login_button", [("en", "🔐 Login"), ("ar", "🔐 دخول")]),
  ("demo_credentials", [("en", "🔑 Demo Credentials"), ("ar", "🔑 بيانات تجريبية")]),
  ("welcome", [("en", "Welcome"), ("ar", "مرحباً")]),
  ("logout", [("en", "🚪 Logout"), ("ar", "🚪 خروج")]),
  ("role", [("en", "Role"), ("ar", "الدور")]),
  ("super_admin", [("en", "Super Admin"), ("ar", "المشرف العام")]),
  ("school_admin", [("en", "School Admin"), ("ar", "مشرف المدرسة")]),
  ("teacher", [("en", "Teacher"), ("ar", "معلم")]),
  ("student", [("en", "Student"), ("ar", "طالب")]),
  ("parent", [("en", "Parent"), ("ar", "ولي الأمر")]),
  ("admin_dashboard", [("en", "🛡️ Super Admin Dashboard"), ("ar", "🛡️ لوحة المشرف العام")]),
  ("schools", [("en", "🏫 Schools"), ("ar", "🏫 المدارس")]),
  ("users", [("en", "👥 Users & Master Key"), ("ar", "👥 المستخدمين والمفتاح الرئيسي")]),
  ("statistics", [("en", "📊 Statistics"), ("ar", "📊 الإحصائيات")]),
  ("create_school", [("en", "➕ Create New School"), ("ar", "➕ إنشاء مدرسة جديدة")]),
  ("existing_schools", [("en", "📋 Existing Schools"), ("ar", "📋 المدارس الحالية")]),
  ("teacher_dashboard", [("en", "👨‍🏫 Teacher Dashboard"), ("ar", "👨‍🏫 لوحة المعلم")]),
  ("vision_grader", [("en", "📷 AI Vision Grader"), ("ar", "📷 المصحح الذكي")]),
  ("library", [("en", "📚 PDF Library"), ("ar", "📚 المكتبة الرقمية")]),
  ("online_classes", [("en", "🎥 Online Classes"), ("ar", "🎥 الحصص الأونلاين")]),
  ("student_dashboard", [("en", "🎓 My Dashboard"), ("ar", "🎓 لوحتي")]),
  ("my_grades", [("en", "📊 My Grades"), ("ar", "📊 درجاتي")]),
  ("resources", [("en", "📚 Resources"), ("ar", "📚 المصادر")]),
  ("upcoming_classes", [("en", "🎥 Upcoming Classes"), ("ar", "🎥 الحصص القادمة")]),
  ("parent_dashboard", [("en", "👨‍👩‍👧 Parent Dashboard"), ("ar", "👨‍👩‍👧 لوحة ولي الأمر")]),
  ("my_children", [("en", "👧 My Children"), ("ar", "👧 أبنائي")]),
  ("child_grades", [("en", "📊 Child\x27s Grades"), ("ar", "📊 درجات الطفل")]),
  ("save", [("en", "💾 Save"), ("ar", "💾 حفظ")]),
  ("cancel", [("en", "❌ Cancel"), ("ar", "❌ إلغاء")]),
  ("delete", [("en", "🗑️ Delete"), ("ar", "🗑️ حذف")]),
  ("search", [("en", "🔍 Search"), ("ar", "🔍 بحث")]),
  ("no_data", [("en", "No data found"), ("ar", "لا توجد بيانات")]),
  ("success", [("en", "Success!"), ("ar", "تم بنجاح!")]),
  ("error", [("en", "Error!"), ("ar", "خطأ!")]),
  ("impersonation_mode", [("en", "🎭 Impersonation Mode"), ("ar", "🎭 وضع انتحال الهوية")]),
  ("exit_impersonation", [("en", "🔴 Exit Impersonation"), ("ar", "🔴 الخروج من الانتحال")]),
  ("login_as", [("en", "🎭 Login As"), ("ar", "🎭 الدخول كـ")]),
  ("reset_password", [("en", "🔐 Reset Password"), ("ar", "🔐 إعادة تعيين كلمة المرور")]),
  ("language", [("en", "🌐 Language"), ("ar", "🌐 اللغة")]),
  ("english", [("en", "English"), ("ar", "English")]),
  ("arabic", [("en", "العربية"), ("ar", "العربية")]),
  ("brain_error_auth", [("en", "⚠️ Please login to access this feature."), ("ar", "⚠️ يرجى تسجيل الدخول للوصول لهذه الميزة.")]),
  ("brain_error_role", [("en", "⚠️ You don\x27t have permission to access this feature."), ("ar", "⚠️ ليس لديك صلاحية للوصول لهذه الميزة.")]),
  ("brain_loading", [("en", "Loading..."), ("ar", "جاري التحميل...")]),
  ("brain_success", [("en", "✅ Success!"), ("ar", "✅ تم بنجاح!")]),
  ("games_title", [("en", "🎮 Educational Games"), ("ar", "🎮 الألعاب التعليمية")]),
  ("games_start", [("en", "Start Game"), ("ar", "ابدأ اللعبة")]),
  ("whatsapp_title", [("en", "📱 WhatsApp Connect"), ("ar", "📱 ربط الواتساب")]),
  ("early_warning_title", [("en", "⚠️ Early Warning System"), ("ar", "⚠️ نظام الإنذار المبكر")]),
  ("voice_title", [("en", "🎤 ZAD Voice"), ("ar", "🎤 صوت زاد")]),
  ("loading", [("en", "Loading..."), ("ar", "جاري التحميل...")]),
  ("submit", [("en", "Submit"), ("ar", "إرسال")]),
  ("back", [("en", "Back"), ("ar", "رجوع")]),
  ("next", [("en", "Next"), ("ar", "التالي")]),
  ("confirm", [("en", "Confirm"), ("ar", "تأكيد")])]

/-- get_language in src/i18n.py: the session language, Arabic by default.
The session value is an Option because st.session_state.get returns a
default when the key is absent. -/
def get_language (sessionLang : Option String) : String :=
  sessionLang.getD "ar"

/-- t in src/i18n.py: translate a key to the current language, falling
back to English and then to the key itself. -/
def t (sessionLang : Option String) (key : String) : String :=
  let lang := get_language sessionLang
  match TRANSLATIONS.lookup key with
  | some entry => (entry.lookup lang).getD ((entry.lookup "en").getD key)
  | none => key

/-! ## Role model and dashboard routing (src/models.py, src/app.py) -/

/-- UserRole enumeration of src/models.py. -/
inductive UserRole where
  | SUPER_ADMIN
  | SCHOOL_ADMIN
  | TEACHER
  | STUDENT
  | PARENT
deriving DecidableEq

/-- The string value carried by each UserRole enum member. -/
def UserRole.value : UserRole → String
  | .SUPER_ADMIN => "super_admin"
  | .SCHOOL_ADMIN => "school_admin"
  | .TEACHER => "teacher"
  | .STUDENT => "student"
  | .PARENT => "parent"

/-- All members of the UserRole enumeration, in declaration order. -/
def UserRole.all : List UserRole :=
  [.SUPER_ADMIN, .SCHOOL_ADMIN, .TEACHER, .STUDENT, .PARENT]

/-- The dashboards show_main_application can route to; unknownRole is
the st.error branch that renders no dashboard. -/
inductive Dashboard where
  | adminView
  | teacherView
  | studentView
  | parentView
  | unknownRole (role : Option String)
deriving DecidableEq

/-- The role list of the admin branch of show_main_application. -/
def adminRoles : List String := ["super_admin", "school_admin", "admin"]

/-- Main-content routing of show_main_application in src/app.py: the
session role (st.session_state.get, hence an Option) selects the view. -/
def show_main_application (role : Option String) : Dashboard :=
  if role ∈ adminRoles.map some then .adminView
  else if role = some "teacher" then .teacherView
  else if role = some "student" then .studentView
  else if role = some "parent" then .parentView
  else .unknownRole role

/-! ## Row types (src/models.py; timestamp columns omitted, they play
no role in the claims except OnlineSession.scheduled_time) -/

/-- User row of src/models.py. -/
structure User where
  id : Nat
  email : String
  full_name : String
  hashed_password : String
  role : String
  is_active : Bool
  school_id : Option Nat
deriving DecidableEq

/-- Grade row of src/models.py (score modelled as an integer; the
claims never do score arithmetic). -/
structure Grade where
  id : Nat
  score : Int
  max_score : Int
  subject : String
  feedback : Option String
  student_id : Nat
  school_id : Nat
deriving DecidableEq

/-- Resource row of src/models.py; school_id is a non-nullable column. -/
structure Resource where
  id : Nat
  title : String
  subject : String
  url : Option String
  teacher_id : Nat
  school_id : Nat
deriving DecidableEq

/-- OnlineSession row of src/models.py; scheduled_time as a timestamp. -/
structure OnlineSession where
  id : Nat
  title : String
  zoom_link : String
  scheduled_time : Nat
  subject : String
  teacher_id : Nat
  school_id : Nat
deriving DecidableEq

/-- Document row of src/models.py; school_id is nullable there. -/
structure Document where
  id : Nat
  title : String
  school_id : Option Nat
deriving DecidableEq

/-- ParentChild row of src/models.py: links a parent to a child. -/
structure ParentChild where
  id : Nat
  parent_id : Nat
  child_id : Nat
deriving DecidableEq

/-! ## Student dashboard queries (src/app.py) -/

/-- _show_student_resources in src/app.py: resources of the session's
school.  The session value is an Option (st.session_state.get); a None
session school matches no row because Resource.school_id is a
non-nullable column, so the SQL comparison with NULL holds nowhere. -/
def _show_student_resources (resources : List Resource) (school_id : Option Nat) :
    List Resource :=
  resources.filter (fun r => some r.school_id == school_id)

/-- Insertion step of the scheduled_time ascending ordering that
order_by(OnlineSession.scheduled_time.asc()) applies. -/
def insertByTime (c : OnlineSession) : List OnlineSession → List OnlineSession
  | [] => [c]
  | x :: xs =>
    if c.scheduled_time ≤ x.scheduled_time then c :: x :: xs else x :: insertByTime c xs

/-- Sort by scheduled_time ascending. -/
def sortByTime : List OnlineSession → List OnlineSession
  | [] => []
  | x :: xs => insertByTime x (sortByTime xs)

/-- _show_student_classes in src/app.py: upcoming sessions of the
session's school, scheduled_time >= now, ordered by time ascending. -/
def _show_student_classes (classes : List OnlineSession) (school_id : Option Nat)
    (now : Nat) : List OnlineSession :=
  sortByTime (classes.filter
    (fun c => some c.school_id == school_id && decide (now ≤ c.scheduled_time)))

/-- Document listing of show_ai_tutor_rag in src/ai_tutor_rag.py: the
session user dictionary's school_id (1 when the key is absent, per
user.get) selects the rows with that school_id. -/
def ragTutorDocuments (docs : List Document) (sessionSchool : Option Nat) :
    List Document :=
  let school_id := sessionSchool.getD 1
  docs.filter (fun d => d.school_id == some school_id)

/-! ## Parent view (src/app.py) -/

/-- Student list of _show_parent_view in src/app.py: the ParentChild
links of this parent are fetched first; with no link the view returns
early with no student data, otherwise the users whose id is among the
linked child ids and whose role is student are listed. -/
def parentViewStudents (links : List ParentChild) (users : List User)
    (parent_id : Nat) : List User :=
  let parent_child_links := links.filter (fun l => l.parent_id == parent_id)
  if parent_child_links.isEmpty then []
  else
    let child_ids := parent_child_links.map (fun l => l.child_id)
    users.filter (fun u => child_ids.contains u.id && u.role == "student")

/-- Grade list of _show_parent_view in src/app.py: the child selected
by full name in the selectbox (first student with that name) has its
grades listed; no selected student means no grades shown. -/
def parentViewGrades (links : List ParentChild) (users : List User)
    (grades : List Grade) (parent_id : Nat) (selName : String) : List Grade :=
  match (parentViewStudents links users parent_id).find?
      (fun s => s.full_name == selName) with
  | some sel => grades.filter (fun g => g.student_id == sel.id)
  | none => []

/-! ## Session state and impersonation (src/app.py, src/super_admin.py) -/

/-- The target-user attributes _impersonate_user in src/super_admin.py
reads from its argument: id, role, username and school_id.  The
username attribute is one models.py's User does not map, so in the
running program reading it raises — but only after the saves and the
user_id/user_role overwrites, and the exit handler overwrites
school_id from the never-saved original_school_id key anyway, so the
round-trip end state derived here is exactly the program's. -/
structure AuthUser where
  id : Nat
  username : String
  hashed_password : String
  role : String
  school_id : Option Nat
deriving DecidableEq

/-- The Streamlit session dictionary restricted to the keys the
impersonation code reads or writes.  Every field is an Option because
st.session_state.get of an absent key yields None; a deleted key
becomes none. -/
structure SessionState where
  user_id : Option Nat
  role : Option String
  user_role : Option String
  user_name : Option String
  username : Option String
  school_id : Option Nat
  is_impersonating : Bool
  original_user_id : Option Nat
  original_role : Option String
  original_username : Option String
  original_user_name : Option String
  original_school_id : Option Nat
deriving DecidableEq

/-- _impersonate_user in src/super_admin.py: saves original_user_id,
original_role (from the user_role key) and original_username, then
overwrites user_id, user_role, username and school_id with the
target's values and raises the impersonation flag. -/
def _impersonate_user (s : SessionState) (u : AuthUser) : SessionState :=
  { s with
    original_user_id := s.user_id,
    original_role := s.user_role,
    original_username := s.username,
    is_impersonating := true,
    user_id := some u.id,
    user_role := some u.role,
    username := some u.username,
    school_id := u.school_id }

/-- _exit_impersonation in src/app.py: restores user_id, role,
user_name and school_id from the original_user_id, original_role,
original_user_name and original_school_id keys, clears the flag, and
deletes those four original keys. -/
def _exit_impersonation (s : SessionState) : SessionState :=
  { s with
    user_id := s.original_user_id,
    role := s.original_role,
    user_name := s.original_user_name,
    school_id := s.original_school_id,
    is_impersonating := false,
    original_user_id := none,
    original_role := none,
    original_user_name := none,
    original_school_id := none }

/-! ## Authentication (src/auth.py) -/

/-- MAX_LOGIN_ATTEMPTS in src/auth.py. -/
def MAX_LOGIN_ATTEMPTS : Nat := 5

/-- LOCKOUT_DURATION_SECONDS in src/auth.py. -/
def LOCKOUT_DURATION_SECONDS : Nat := 60

/-- The two rate-limiting session keys of src/auth.py. -/
structure RateLimitState where
  login_attempts : Nat
  lockout_until : Nat
deriving DecidableEq

/-- _is_locked_out in src/auth.py: locked while lockout_until exceeds
the current time. -/
def _is_locked_out (now : Nat) (s : RateLimitState) : Bool :=
  decide (s.lockout_until > now)

/-- _record_failed_attempt in src/auth.py: increments the counter and,
on reaching MAX_LOGIN_ATTEMPTS, starts the lockout and zeroes the
counter. -/
def _record_failed_attempt (now : Nat) (s : RateLimitState) : RateLimitState :=
  let attempts := s.login_attempts + 1
  if attempts ≥ MAX_LOGIN_ATTEMPTS then
    { login_attempts := 0, lockout_until := now + LOCKOUT_DURATION_SECONDS }
  else
    { s with login_attempts := attempts }

/-- _reset_rate_limit in src/auth.py. -/
def _reset_rate_limit : RateLimitState := ⟨0, 0⟩

/-- The message of the AttributeError Python raises when src/auth.py
builds the query expression User.username: models.py's User — the only
User model in the repository, and what auth.py imports — maps no
username column. -/
def USERNAME_ATTRIBUTE_ERROR : String :=
  "type object \x27User\x27 has no attribute \x27username\x27"

/-- The users-by-username query that opens the database access of both
login (src/auth.py:131) and register_user (src/auth.py:169):
session.query(User).filter(User.username == username).first().
Against models.py's User the filter expression raises AttributeError
while being built, so the query never executes and no row is ever
returned, whatever the table holds. -/
def queryUserByUsername (db : List User) (username : String) :
    Except String (Option User) :=
  Except.error USERNAME_ATTRIBUTE_ERROR

/-- Result of one login call: the returned boolean or the propagated
exception (login's try block has a finally but no except clause),
whether the call got past the lockout check into the database block,
and the rate-limit state afterwards. -/
structure LoginResult where
  outcome : Except String Bool
  reached_db : Bool
  state : RateLimitState

/-- login in src/auth.py composed with models.py's User.  An active
lockout returns False before any database access.  Otherwise the
username query raises (see queryUserByUsername) and the exception
propagates with the rate-limit state untouched; the verification,
_reset_rate_limit and _record_failed_attempt paths below the query are
kept here exactly as the source writes them, but nothing can reach
them. -/
def login (verify : String → String → Bool) (db : List User)
    (username password : String) (now : Nat) (s : RateLimitState) : LoginResult :=
  if _is_locked_out now s then
    { outcome := Except.ok false, reached_db := false, state := s }
  else
    match queryUserByUsername db username with
    | .error e => { outcome := Except.error e, reached_db := true, state := s }
    | .ok (some u) =>
      if verify u.hashed_password password then
        { outcome := Except.ok true, reached_db := true, state := _reset_rate_limit }
      else
        { outcome := Except.ok false, reached_db := true,
          state := _record_failed_attempt now s }
    | .ok none =>
      { outcome := Except.ok false, reached_db := true,
        state := _record_failed_attempt now s }

/-- Consecutive login calls with the same credentials at the given
times, threading the rate-limit state. -/
def loginCalls (verify : String → String → Bool) (db : List User)
    (username password : String) : List Nat → RateLimitState → RateLimitState
  | [], s => s
  | tk :: ts, s =>
    loginCalls verify db username password ts
      (login verify db username password tk s).state

/-- The message of the TypeError the declarative constructor would
raise for User(username=...) if register_user's duplicate check could
ever return: models.py's User accepts no username keyword either. -/
def USER_KWARG_TYPE_ERROR : String :=
  "\x27username\x27 is an invalid keyword argument for User()"

/-- register_user in src/auth.py composed with models.py's User.  The
duplicate-check query raises AttributeError at User.username inside
the try block; except Exception catches it, rolls back and returns the
error tuple — on every call, with the table unchanged.  The other
branches are kept as the source writes them but are unreachable, and
even the insert branch could only raise again and roll back, because
User(username=...) is not a field of the model. -/
def register_user (db : List User) (username password role : String)
    (school_id : Nat) : (Bool × String) × List User :=
  match queryUserByUsername db username with
  | .error e => ((false, "Registration error: " ++ e), db)
  | .ok (some _) => ((false, "Username already exists."), db)
  | .ok none => ((false, "Registration error: " ++ USER_KWARG_TYPE_ERROR), db)

/-- The exceptions bcrypt.checkpw can raise on malformed input, which
verify_password in src/auth.py catches. -/
inductive BcryptError where
  | valueError
  | typeError
deriving DecidableEq

/-- verify_password in src/auth.py: checkpw is the bcrypt oracle taking
the provided password and the stored hash; a ValueError or TypeError
(invalid hash format) yields False instead of propagating. -/
def verify_password (checkpw : String → String → Except BcryptError Bool)
    (stored_password provided_password : String) : Bool :=
  match checkpw provided_password stored_password with
  | .ok b => b
  | .error _ => false

/-! ## RAG engine (src/rag_engine.py) -/

/-- Decimal digits of a natural number, least significant first, as
Python's str builds the school id into the f-string. -/
def natDigitsRev (n : Nat) : List Nat :=
  if h : n < 10 then [n]
  else
    have : n / 10 < n := Nat.div_lt_self (by omega) (by omega)
    (n % 10) :: natDigitsRev (n / 10)

/-- Python str of a non-negative integer: decimal digit characters,
most significant first. -/
def pyStr (n : Nat) : String :=
  ⟨(natDigitsRev n).reverse.map Nat.digitChar⟩

/-- The FAISS store path of RAGChatBot.__init__ in src/rag_engine.py:
the f-string faiss_index_{school_id}. -/
def vector_store_path (school_id : Nat) : String :=
  "faiss_index_" ++ pyStr school_id

/-- A FAISS vector store, abstracted to its list of document chunks. -/
structure VectorStore where
  docs : List String
deriving DecidableEq

/-- The on-disk state: an association of store paths to saved stores. -/
abbrev FileSystem : Type := List (String × VectorStore)

/-- RAGChatBot state after __init__ in src/rag_engine.py. -/
structure RAGChatBot where
  school_id : Nat
  store_path : String
  vector_store : Option VectorStore
deriving DecidableEq

/-- RAGChatBot.__init__ with _load_vector_store: the store is loaded
from faiss_index_{school_id} when that path exists on disk, otherwise
left unset (None). -/
def RAGChatBot.init (fsys : FileSystem) (school_id : Nat) : RAGChatBot :=
  { school_id := school_id,
    store_path := vector_store_path school_id,
    vector_store := List.lookup (vector_store_path school_id) fsys }

/-- The document-loading loop of ingest_documents: .pdf files go to
PyPDFLoader, .docx to Docx2txtLoader (both oracles here), anything
else is skipped. -/
def loadedDocuments (loadPdf loadDocx : String → List String)
    (file_paths : List String) : List String :=
  file_paths.foldl (fun acc fp =>
    if fp.endsWith ".pdf" then acc ++ loadPdf fp
    else if fp.endsWith ".docx" then acc ++ loadDocx fp
    else acc) []

/-- Overwriting save_local: the path now maps to the given store,
every other path keeps its previous content. -/
def fsWrite (fsys : FileSystem) (path : String) (store : VectorStore) : FileSystem :=
  (path, store) :: List.filter (fun kv => !(kv.1 == path)) fsys

/-- RAGChatBot.ingest_documents in src/rag_engine.py: loads and splits
the documents (splitDocs is the RecursiveCharacterTextSplitter
oracle), adds them to the existing store or creates a fresh one, and
saves at the bot's own store path. -/
def RAGChatBot.ingest_documents (bot : RAGChatBot)
    (loadPdf loadDocx : String → List String)
    (splitDocs : List String → List String) (fsys : FileSystem)
    (file_paths : List String) : RAGChatBot × FileSystem :=
  let splits := splitDocs (loadedDocuments loadPdf loadDocx file_paths)
  let store : VectorStore :=
    match bot.vector_store with
    | some vs => ⟨vs.docs ++ splits⟩
    | none => ⟨splits⟩
  ({ bot with vector_store := some store }, fsWrite fsys bot.store_path store)

/-! ## Background tasks (src/celery_app.py, src/tasks.py) -/

/-- REDIS_URL in src/celery_app.py: the environment value or the
localhost default. -/
def REDIS_URL (env : Option String) : String :=
  env.getD "redis://localhost:6379/0"

/-- The Celery application configuration of src/celery_app.py. -/
structure CeleryApp where
  name : String
  broker : String
  backend : String
  includedModules : List String
  task_track_started : Bool
  result_expires : Nat
  broker_connection_retry_on_startup : Bool
deriving DecidableEq

/-- celery_app in src/celery_app.py. -/
def celery_app (env : Option String) : CeleryApp :=
  { name := "tasks",
    broker := REDIS_URL env,
    backend := REDIS_URL env,
    includedModules := ["core.tasks"],
    task_track_started := true,
    result_expires := 3600,
    broker_connection_retry_on_startup := true }

/-- One progress report of a Celery task (update_state meta). -/
structure ProgressUpdate where
  current : Nat
  total : Nat
  status : String
deriving DecidableEq

/-- The final result dictionary of process_document_task. -/
structure TaskResult where
  current : Nat
  total : Nat
  status : String
  doc_length : Nat
  school_id : Nat
deriving DecidableEq

/-- process_document_task in src/tasks.py: the progress states it
reports and the result it returns (its sleeps consume real time only
and do not affect the result). -/
def process_document_task (file_content_str : String) (school_id : Nat) :
    List ProgressUpdate × TaskResult :=
  ([⟨1, 10, "Extracting text..."⟩,
    ⟨3, 10, "Chunking text for AI model..."⟩,
    ⟨6, 10, "Generating AI embeddings..."⟩,
    ⟨9, 10, "Saving to vector database..."⟩],
   ⟨10, 10, "Processing complete!", file_content_str.length, school_id⟩)

/-- The background tasks the repository registers with Celery: the one
celery_app.task-decorated function of src/tasks.py. -/
def registeredBackgroundTasks : List String := ["process_document_task"]

end ZAD

namespace ZAD

/-! ## Theorems -/

/-- Membership in insertByTime is membership in the inserted element or the list. -/
theorem mem_insertByTime {c x : OnlineSession} {l : List OnlineSession} :
    x ∈ insertByTime c l ↔ x = c ∨ x ∈ l := by
  induction l with
  | nil => simp [insertByTime]
  | cons y ys ih =>
    simp only [insertByTime]
    split
    · simp [List.mem_cons]
    · simp only [List.mem_cons, ih]
      tauto

/-- sortByTime permutes membership only. -/
theorem mem_sortByTime {x : OnlineSession} {l : List OnlineSession} :
    x ∈ sortByTime l ↔ x ∈ l := by
  induction l with
  | nil => simp [sortByTime]
  | cons y ys ih => simp [sortByTime, mem_insertByTime, ih]

/-- A school filter that agrees on two tables keeps agreeing after any
further conjunctive filter, because filtering by the conjunction is
filtering the school rows again. -/
theorem filter_and_eq {α : Type} (p q : α → Bool) {l1 l2 : List α}
    (h : l1.filter p = l2.filter p) :
    l1.filter (fun a => p a && q a) = l2.filter (fun a => p a && q a) := by
  have key : ∀ l : List α, l.filter (fun a => p a && q a) = (l.filter p).filter q := by
    intro l
    induction l with
    | nil => rfl
    | cons x xs ih =>
      cases hp : p x <;> cases hq : q x <;>
        simp [List.filter_cons, hp, hq, ih]
  rw [key, key, h]

/-- Every student listed by the parent view has role student and is
linked to the parent by a ParentChild row. -/
theorem parentViewStudents_linked {links : List ParentChild} {users : List User}
    {pid : Nat} :
    ∀ u ∈ parentViewStudents links users pid,
      u.role = "student" ∧ ∃ l ∈ links, l.parent_id = pid ∧ l.child_id = u.id := by
  intro u hu
  simp only [parentViewStudents] at hu
  by_cases hemp : (links.filter (fun l => l.parent_id == pid)).isEmpty
  · rw [if_pos hemp] at hu
    cases hu
  · rw [if_neg hemp] at hu
    simp only [List.mem_filter, Bool.and_eq_true] at hu
    obtain ⟨humem, hcontains, hrole⟩ := hu
    refine ⟨by simpa using hrole, ?_⟩
    have hmap : u.id ∈ (links.filter (fun l => l.parent_id == pid)).map
        (fun l => l.child_id) := by
      simpa using hcontains
    obtain ⟨l, hl, hlid⟩ := List.mem_map.mp hmap
    obtain ⟨hl_mem, hl_pid⟩ := List.mem_filter.mp hl
    exact ⟨l, hl_mem, by simpa using hl_pid, hlid⟩

/-- C1: multi-tenant read isolation.  The student dashboard's resource
and upcoming-class listings and the RAG tutor's document listing for a
session with school_id s contain only rows of school s, and two
database states whose school-s rows agree produce identical listings,
whatever their rows of other schools. -/
theorem C1_tenant_read_isolation :
    ∀ (s now : Nat) (res1 res2 : List Resource) (cls1 cls2 : List OnlineSession)
      (docs1 docs2 : List Document),
      (∀ r ∈ _show_student_resources res1 (some s), r.school_id = s) ∧
      (∀ c ∈ _show_student_classes cls1 (some s) now, c.school_id = s) ∧
      (∀ d ∈ ragTutorDocuments docs1 (some s), d.school_id = some s) ∧
      (res1.filter (fun r => r.school_id == s) = res2.filter (fun r => r.school_id == s) →
        _show_student_resources res1 (some s) = _show_student_resources res2 (some s)) ∧
      (cls1.filter (fun c => c.school_id == s) = cls2.filter (fun c => c.school_id == s) →
        _show_student_classes cls1 (some s) now = _show_student_classes cls2 (some s) now) ∧
      (docs1.filter (fun d => d.school_id == some s) =
          docs2.filter (fun d => d.school_id == some s) →
        ragTutorDocuments docs1 (some s) = ragTutorDocuments docs2 (some s)) := by
  intro s now res1 res2 cls1 cls2 docs1 docs2
  refine ⟨?_, ?_, ?_, ?_, ?_, ?_⟩
  · intro r hr
    simp only [_show_student_resources, List.mem_filter] at hr
    simpa using hr.2
  · intro c hc
    simp only [_show_student_classes] at hc
    rw [mem_sortByTime] at hc
    simp only [List.mem_filter, Bool.and_eq_true] at hc
    simpa using hc.2.1
  · intro d hd
    have hd' : d ∈ docs1.filter (fun x => x.school_id == some s) := hd
    simp only [List.mem_filter] at hd'
    simpa using hd'.2
  · intro h
    exact h
  · intro h
    exact congrArg sortByTime
      (filter_and_eq (fun c : OnlineSession => some c.school_id == some s)
        (fun c : OnlineSession => decide (now ≤ c.scheduled_time)) h)
  · intro h
    exact h

/-- C1 witness: two concrete database pairs that agree on school 1 but
differ elsewhere give the same three listings. -/
theorem C1_tenant_read_isolation_witness :
    _show_student_resources
        [⟨1, "algebra", "math", none, 9, 1⟩, ⟨2, "poems", "arabic", none, 9, 2⟩] (some 1) =
      _show_student_resources
        [⟨1, "algebra", "math", none, 9, 1⟩, ⟨3, "maps", "geo", none, 9, 3⟩] (some 1) ∧
    _show_student_classes
        [⟨1, "calc", "z1", 10, "math", 9, 1⟩, ⟨2, "bio", "z2", 5, "sci", 9, 2⟩] (some 1) 0 =
      _show_student_classes
        [⟨1, "calc", "z1", 10, "math", 9, 1⟩, ⟨3, "chem", "z3", 7, "sci", 9, 4⟩] (some 1) 0 ∧
    ragTutorDocuments [⟨1, "book", some 1⟩, ⟨2, "notes", some 2⟩] (some 1) =
      ragTutorDocuments [⟨1, "book", some 1⟩, ⟨3, "sheet", none⟩] (some 1) :=
  ⟨(C1_tenant_read_isolation 1 0 _ _ [] [] [] []).2.2.2.1 (by decide),
   (C1_tenant_read_isolation 1 0 [] [] _ _ [] []).2.2.2.2.1 (by decide),
   (C1_tenant_read_isolation 1 0 [] [] [] [] _ _).2.2.2.2.2 (by decide)⟩

/-- C2: parent access control.  A parent with no ParentChild link is
shown no student and no grade data, every student listed is linked to
the parent by a ParentChild row, and every grade listed belongs to a
linked child. -/
theorem C2_parent_access_control :
    ∀ (links : List ParentChild) (users : List User) (grades : List Grade)
      (pid : Nat) (selName : String),
      (links.filter (fun l => l.parent_id == pid) = [] →
        parentViewStudents links users pid = [] ∧
        parentViewGrades links users grades pid selName = []) ∧
      (∀ u ∈ parentViewStudents links users pid,
        u.role = "student" ∧ ∃ l ∈ links, l.parent_id = pid ∧ l.child_id = u.id) ∧
      (∀ g ∈ parentViewGrades links users grades pid selName,
        ∃ l ∈ links, l.parent_id = pid ∧ l.child_id = g.student_id) := by
  intro links users grades pid selName
  refine ⟨?_, parentViewStudents_linked, ?_⟩
  · intro h
    have h1 : parentViewStudents links users pid = [] := by
      simp [parentViewStudents, h]
    exact ⟨h1, by simp [parentViewGrades, h1]⟩
  · intro g hg
    simp only [parentViewGrades] at hg
    cases hfind : (parentViewStudents links users pid).find?
        (fun s => s.full_name == selName) with
    | none =>
      rw [hfind] at hg
      cases hg
    | some sel =>
      rw [hfind] at hg
      have hsel : sel ∈ parentViewStudents links users pid :=
        List.mem_of_find?_eq_some hfind
      have hgid : g.student_id = sel.id := by
        simp only [List.mem_filter] at hg
        simpa using hg.2
      obtain ⟨_, l, hl, hpid, hchild⟩ := parentViewStudents_linked sel hsel
      exact ⟨l, hl, hpid, by rw [hchild, hgid]⟩

/-- C2 witness: a parent with one linked child sees that child and its
grades only; the unlinked-parent clause applied to parent 99. -/
theorem C2_parent_access_control_witness :
    parentViewStudents [⟨1, 5, 7⟩] [⟨7, "k@s", "Kid", "h", "student", true, some 1⟩] 99 = [] ∧
    parentViewGrades [⟨1, 5, 7⟩] [⟨7, "k@s", "Kid", "h", "student", true, some 1⟩]
      [⟨1, 90, 100, "math", none, 7, 1⟩] 99 "Kid" = [] :=
  (C2_parent_access_control [⟨1, 5, 7⟩]
    [⟨7, "k@s", "Kid", "h", "student", true, some 1⟩]
    [⟨1, 90, 100, "math", none, 7, 1⟩] 99 "Kid").1 (by decide)

/-- C4: role-based dashboard routing.  super_admin, school_admin and
admin route to the admin dashboard, teacher/student/parent to their
views, any other role value (including a missing role) yields the
unknown-role error and no dashboard, and the data model's UserRole
enumeration consists of exactly the five declared roles. -/
theorem C4_role_routing :
    show_main_application (some "super_admin") = Dashboard.adminView ∧
    show_main_application (some "school_admin") = Dashboard.adminView ∧
    show_main_application (some "admin") = Dashboard.adminView ∧
    show_main_application (some "teacher") = Dashboard.teacherView ∧
    show_main_application (some "student") = Dashboard.studentView ∧
    show_main_application (some "parent") = Dashboard.parentView ∧
    (∀ role : Option String,
      show_main_application role = Dashboard.unknownRole role ↔
        role ∉ ([some "super_admin", some "school_admin", some "admin",
                 some "teacher", some "student", some "parent"] : List (Option String))) ∧
    (∀ u : UserRole, u ∈ UserRole.all) ∧
    UserRole.all.map UserRole.value =
      ["super_admin", "school_admin", "teacher", "student", "parent"] := by
  refine ⟨by decide, by decide, by decide, by decide, by decide, by decide, ?_, ?_, by decide⟩
  · intro role
    rcases role with _ | r
    · simp [show_main_application, adminRoles]
    · constructor
      · intro h hmem
        simp only [List.mem_cons, List.not_mem_nil, or_false] at hmem
        rcases hmem with h1 | h1 | h1 | h1 | h1 | h1 <;>
          (injection h1 with h1; subst h1; simp [show_main_application, adminRoles] at h)
      · intro h
        simp only [List.mem_cons, List.not_mem_nil, or_false, not_or] at h
        obtain ⟨h1, h2, h3, h4, h5, h6⟩ := h
        simp [show_main_application, adminRoles, h1, h2, h3, h4, h5, h6]
  · intro u
    cases u <;> decide

/-- C4 witness: the routing theorem evaluated at a concrete non-role value. -/
theorem C4_role_routing_witness :
    show_main_application (some "librarian") = Dashboard.unknownRole (some "librarian") :=
  (C4_role_routing.2.2.2.2.2.2.1 (some "librarian")).2 (by decide)

/-- C3: the impersonation round trip does not restore the session.
At a session state as authenticate_user creates it (school admin of
school 7), impersonating a student and exiting restores user_id and
clears the flag, but leaves school_id, user_name and role as None:
_exit_impersonation reads original_school_id, original_user_name and
original_role keys that _impersonate_user never saved under those
names (it saves original_username, and original_role from the
user_role key, which authenticate_user does not set). -/
theorem C3_impersonation_round_trip_fails :
    let s0 : SessionState :=
      ⟨some 1, some "school_admin", none, some "Head Admin", none, some 7, false,
       none, none, none, none, none⟩
    let s1 := _exit_impersonation (_impersonate_user s0 ⟨2, "stud1", "pw", "student", some 3⟩)
    s1.user_id = some 1 ∧ s1.is_impersonating = false ∧
    s1.school_id = none ∧ s1.user_name = none ∧ s1.role = none ∧
    s1.school_id ≠ s0.school_id ∧ s1.user_name ≠ s0.user_name ∧ s1.role ≠ s0.role := by
  decide

/-- C8: the login rate limiter is dead code.  Every call either takes
the lockout branch — False, no database access, state unchanged — or
raises AttributeError at User.username with the state unchanged, so no
sequence of login calls ever changes the rate-limit state, a session
that was never locked stays unlocked forever, and the first call on a
fresh session crashes instead of returning False: five failed attempts
can never accumulate and a successful reset is unreachable. -/
theorem C8_login_rate_limit_dead :
    (∀ (verify : String → String → Bool) (db : List User)
       (username password : String) (now : Nat) (s : RateLimitState),
      login verify db username password now s =
        if _is_locked_out now s then
          { outcome := Except.ok false, reached_db := false, state := s }
        else
          { outcome := Except.error USERNAME_ATTRIBUTE_ERROR, reached_db := true,
            state := s }) ∧
    (∀ (verify : String → String → Bool) (db : List User)
       (username password : String) (ts : List Nat) (s : RateLimitState),
      loginCalls verify db username password ts s = s) ∧
    (∀ now : Nat, _is_locked_out now ⟨0, 0⟩ = false) ∧
    login (fun _ _ => false) [] "admin" "wrong" 0 ⟨0, 0⟩ =
      { outcome := Except.error USERNAME_ATTRIBUTE_ERROR, reached_db := true,
        state := ⟨0, 0⟩ } := by
  have hstate : ∀ (verify : String → String → Bool) (db : List User)
      (username password : String) (now : Nat) (s : RateLimitState),
      (login verify db username password now s).state = s := by
    intro verify db username password now s
    cases h : _is_locked_out now s <;> simp [login, queryUserByUsername, h]
  refine ⟨?_, ?_, ?_, rfl⟩
  · intro verify db username password now s
    cases h : _is_locked_out now s <;> simp [login, queryUserByUsername, h]
  · intro verify db username password ts
    induction ts with
    | nil =>
      intro s
      rfl
    | cons tk ts ih =>
      intro s
      simp only [loginCalls]
      rw [hstate verify db username password tk s]
      exact ih s
  · intro now
    simp [_is_locked_out]

/-- C9: register_user never registers.  Against models.py's User the
duplicate-check query raises AttributeError, the except clause rolls
the transaction back, and every call — whatever the table, the
credentials, the role or the school — returns the registration-error
tuple with the table unchanged; in particular, at the claim's success
scenario (fresh username, empty table) no row is added. -/
theorem C9_register_user_always_errors :
    (∀ (db : List User) (username password role : String) (school_id : Nat),
      register_user db username password role school_id =
        ((false,
          "Registration error: type object \x27User\x27 has no attribute \x27username\x27"),
         db)) ∧
    register_user [] "alice" "pw" "student" 1 =
      ((false,
        "Registration error: type object \x27User\x27 has no attribute \x27username\x27"),
       ([] : List User)) :=
  ⟨fun _ _ _ _ _ => rfl, rfl⟩

/-- C10: password verification totality.  With checkpw the bcrypt
oracle (whose failures on malformed stored hashes are the ValueError
or TypeError values), verify_password returns a boolean for every
input: True exactly when the oracle accepts the pair, False when the
oracle reports a match failure or raises either error. -/
theorem C10_verify_password_total :
    ∀ (checkpw : String → String → Except BcryptError Bool) (stored provided : String),
      (verify_password checkpw stored provided = true ↔
        checkpw provided stored = .ok true) ∧
      (∀ e, checkpw provided stored = .error e →
        verify_password checkpw stored provided = false) ∧
      (∀ b, checkpw provided stored = .ok b →
        verify_password checkpw stored provided = b) := by
  intro checkpw stored provided
  refine ⟨?_, fun e he => by simp [verify_password, he],
    fun b hb => by simp [verify_password, hb]⟩
  cases h : checkpw provided stored with
  | ok b => simp [verify_password, h]
  | error e => simp [verify_password, h]

/-- C10 witness: an invalid stored hash (oracle raises ValueError)
gives False; a matching pair gives True. -/
theorem C10_verify_password_total_witness :
    verify_password (fun _ _ => .error .valueError) "not-a-hash" "pw" = false ∧
    verify_password (fun _ _ => .ok true) "$2b$12$x" "pw" = true :=
  ⟨(C10_verify_password_total (fun _ _ => .error .valueError) "not-a-hash" "pw").2.1
      .valueError rfl,
   (C10_verify_password_total (fun _ _ => .ok true) "$2b$12$x" "pw").2.2 true rfl⟩

/-- C7: translation lookup.  t returns the current-language entry when
one exists, else the English entry when one exists, else the key; a
session with no language set defaults to Arabic. -/
theorem C7_translation_lookup :
    (∀ (s : Option String) (key : String),
      (∀ entry, TRANSLATIONS.lookup key = some entry →
        (∀ v, entry.lookup (get_language s) = some v → t s key = v) ∧
        (entry.lookup (get_language s) = none →
          (∀ v, entry.lookup "en" = some v → t s key = v) ∧
          (entry.lookup "en" = none → t s key = key))) ∧
      (TRANSLATIONS.lookup key = none → t s key = key)) ∧
    get_language none = "ar" := by
  refine ⟨?_, rfl⟩
  intro s key
  constructor
  · intro entry hentry
    refine ⟨?_, ?_⟩
    · intro v hv
      simp [t, hentry, hv]
    · intro hnone
      refine ⟨?_, ?_⟩
      · intro v hv
        simp [t, hentry, hnone, hv]
      · intro hen
        simp [t, hentry, hnone, hen]
  · intro hnone
    simp [t, hnone]

/-- C7 witness: looking up the login key in an Arabic-default session. -/
theorem C7_translation_lookup_witness : t none "login" = "تسجيل الدخول" :=
  ((C7_translation_lookup.1 none "login").1
    [("en", "Login"), ("ar", "تسجيل الدخول")] rfl).1 "تسجيل الدخول" rfl

/-- Decimal digit lists are never empty. -/
theorem natDigitsRev_ne_nil (n : Nat) : natDigitsRev n ≠ [] := by
  rw [natDigitsRev]
  split <;> simp

/-- Every decimal digit produced is below ten. -/
theorem natDigitsRev_lt_ten : ∀ n : Nat, ∀ d ∈ natDigitsRev n, d < 10 := by
  intro n
  induction n using Nat.strong_induction_on with
  | _ n ih =>
    intro d hd
    rw [natDigitsRev] at hd
    split at hd
    · simp only [List.mem_singleton] at hd
      omega
    · simp only [List.mem_cons] at hd
      rcases hd with h1 | h1
      · omega
      · exact ih (n / 10) (Nat.div_lt_self (by omega) (by omega)) d h1

/-- Unfolding for a one-digit number. -/
theorem natDigitsRev_of_lt {k : Nat} (hk : k < 10) : natDigitsRev k = [k] := by
  rw [natDigitsRev]
  exact dif_pos hk

/-- Unfolding for a number of two or more digits. -/
theorem natDigitsRev_of_ge {k : Nat} (hk : ¬ k < 10) :
    natDigitsRev k = (k % 10) :: natDigitsRev (k / 10) := by
  conv_lhs => rw [natDigitsRev]
  exact dif_neg hk

/-- The decimal digit list determines the number. -/
theorem natDigitsRev_inj : ∀ m n : Nat, natDigitsRev m = natDigitsRev n → m = n := by
  intro m
  induction m using Nat.strong_induction_on with
  | _ m ih =>
    intro n h
    by_cases hm : m < 10 <;> by_cases hn : n < 10
    · rw [natDigitsRev_of_lt hm, natDigitsRev_of_lt hn] at h
      simpa using h
    · rw [natDigitsRev_of_lt hm, natDigitsRev_of_ge hn] at h
      simp only [List.cons.injEq] at h
      exact absurd h.2.symm (natDigitsRev_ne_nil _)
    · rw [natDigitsRev_of_ge hm, natDigitsRev_of_lt hn] at h
      simp only [List.cons.injEq] at h
      exact absurd h.2 (natDigitsRev_ne_nil _)
    · rw [natDigitsRev_of_ge hm, natDigitsRev_of_ge hn] at h
      simp only [List.cons.injEq] at h
      have hdiv := ih (m / 10) (Nat.div_lt_self (by omega) (by omega)) (n / 10) h.2
      omega

/-- Mapping to digit characters is injective on digit lists. -/
theorem map_digitChar_inj : ∀ l1 l2 : List Nat, (∀ d ∈ l1, d < 10) → (∀ d ∈ l2, d < 10) →
    l1.map Nat.digitChar = l2.map Nat.digitChar → l1 = l2 := by
  have key : ∀ d1 < 10, ∀ d2 < 10, Nat.digitChar d1 = Nat.digitChar d2 → d1 = d2 := by
    decide
  intro l1
  induction l1 with
  | nil =>
    intro l2 _ _ h
    cases l2 with
    | nil => rfl
    | cons y ys => simp at h
  | cons x xs ih =>
    intro l2 h1 h2 h
    cases l2 with
    | nil => simp at h
    | cons y ys =>
      simp only [List.map_cons, List.cons.injEq] at h
      have hx := key x (h1 x (by simp)) y (h2 y (by simp)) h.1
      rw [hx, ih ys (fun d hd => h1 d (List.mem_cons_of_mem _ hd))
        (fun d hd => h2 d (List.mem_cons_of_mem _ hd)) h.2]

/-- Python decimal strings are injective, at the character-list level. -/
theorem pyStr_data_inj : ∀ m n : Nat, (pyStr m).data = (pyStr n).data → m = n := by
  intro m n h
  have hd : (natDigitsRev m).reverse.map Nat.digitChar =
      (natDigitsRev n).reverse.map Nat.digitChar := h
  have hrev : (natDigitsRev m).reverse = (natDigitsRev n).reverse :=
    map_digitChar_inj _ _
      (fun d hd1 => natDigitsRev_lt_ten m d (List.mem_reverse.mp hd1))
      (fun d hd2 => natDigitsRev_lt_ten n d (List.mem_reverse.mp hd2)) hd
  exact natDigitsRev_inj m n (List.reverse_injective hrev)

/-- Distinct school ids give distinct FAISS store paths. -/
theorem vector_store_path_inj : ∀ s s' : Nat,
    vector_store_path s = vector_store_path s' → s = s' := by
  intro s s' h
  have hd := congrArg String.data h
  simp only [vector_store_path, String.data_append] at hd
  exact pyStr_data_inj s s' (List.append_cancel_left hd)

/-- Looking up the freshly written path finds the written store. -/
theorem lookup_fsWrite_self (fsys : FileSystem) (path : String) (store : VectorStore) :
    List.lookup path (fsWrite fsys path store) = some store := by
  simp [fsWrite, List.lookup]

/-- Filtering out one path leaves lookups at other paths unchanged. -/
theorem lookup_filter_other {fsys : FileSystem} {path p : String} (h : p ≠ path) :
    List.lookup p (List.filter (fun kv => !(kv.1 == path)) fsys) =
      List.lookup p fsys := by
  induction fsys with
  | nil => rfl
  | cons kv rest ih =>
    obtain ⟨k, v⟩ := kv
    by_cases hk : k = path
    · subst hk
      have hpk : (p == k) = false := by simpa using h
      simp [List.filter_cons, List.lookup, hpk, ih]
    · have hkpath : (k == path) = false := by simpa using hk
      cases hpk : (p == k) <;>
        simp [List.filter_cons, List.lookup, hkpath, hpk, ih]

/-- Writing one path leaves every other path's content unchanged. -/
theorem lookup_fsWrite_ne (fsys : FileSystem) (path p : String) (store : VectorStore)
    (h : p ≠ path) :
    List.lookup p (fsWrite fsys path store) = List.lookup p fsys := by
  have hppath : (p == path) = false := by simpa using h
  simp only [fsWrite, List.lookup, hppath]
  exact lookup_filter_other h

/-- C5: per-school RAG index isolation.  A bot's store path is exactly
faiss_index_ followed by its school id, distinct school ids never give
the same path, construction loads the store saved at that path and
leaves the store unset when the path does not exist, ingesting with no
loaded store builds a fresh store from the ingested splits alone, and
saving writes the bot's own path and no other. -/
theorem C5_rag_store_isolation :
    ∀ (s s' : Nat) (fsys : FileSystem) (loadPdf loadDocx : String → List String)
      (splitDocs : List String → List String) (file_paths : List String),
      (RAGChatBot.init fsys s).store_path = "faiss_index_" ++ pyStr s ∧
      (s ≠ s' →
        (RAGChatBot.init fsys s).store_path ≠ (RAGChatBot.init fsys s').store_path) ∧
      (∀ store, List.lookup (vector_store_path s) fsys = some store →
        (RAGChatBot.init fsys s).vector_store = some store) ∧
      (List.lookup (vector_store_path s) fsys = none →
        (RAGChatBot.init fsys s).vector_store = none) ∧
      (∀ bot : RAGChatBot, bot.vector_store = none →
        (bot.ingest_documents loadPdf loadDocx splitDocs fsys file_paths).1.vector_store =
          some ⟨splitDocs (loadedDocuments loadPdf loadDocx file_paths)⟩) ∧
      (∀ (bot : RAGChatBot) (p : String), p ≠ bot.store_path →
        List.lookup p (bot.ingest_documents loadPdf loadDocx splitDocs fsys file_paths).2 =
          List.lookup p fsys) ∧
      (∀ bot : RAGChatBot,
        List.lookup bot.store_path
            (bot.ingest_documents loadPdf loadDocx splitDocs fsys file_paths).2 =
          (bot.ingest_documents loadPdf loadDocx splitDocs fsys file_paths).1.vector_store) := by
  intro s s' fsys loadPdf loadDocx splitDocs file_paths
  refine ⟨rfl, ?_, ?_, ?_, ?_, ?_, ?_⟩
  · intro hne heq
    exact hne (vector_store_path_inj s s' heq)
  · intro store h
    simp [RAGChatBot.init, h]
  · intro h
    simp [RAGChatBot.init, h]
  · intro bot hnone
    simp [RAGChatBot.ingest_documents, hnone]
  · intro bot p hne
    cases hbs : bot.vector_store <;>
      (simp only [RAGChatBot.ingest_documents, hbs]
       exact lookup_fsWrite_ne fsys bot.store_path p _ hne)
  · intro bot
    cases hbs : bot.vector_store <;>
      (simp only [RAGChatBot.ingest_documents, hbs]
       exact lookup_fsWrite_self fsys bot.store_path _)

/-- C5 witness: bots for schools 1 and 2 get different paths; with an
empty disk the school-3 bot starts with no store; with school 3's
index on disk it loads exactly that store. -/
theorem C5_rag_store_isolation_witness :
    (RAGChatBot.init [] 1).store_path ≠ (RAGChatBot.init [] 2).store_path ∧
    (RAGChatBot.init [] 3).vector_store = none ∧
    (RAGChatBot.init [(vector_store_path 3, ⟨["chunk"]⟩)] 3).vector_store =
      some ⟨["chunk"]⟩ :=
  ⟨(C5_rag_store_isolation 1 2 [] (fun _ => []) (fun _ => []) (fun l => l) []).2.1
      (by decide),
   (C5_rag_store_isolation 3 0 [] (fun _ => []) (fun _ => []) (fun l => l)
      []).2.2.2.1 rfl,
   (C5_rag_store_isolation 3 0 [(vector_store_path 3, ⟨["chunk"]⟩)] (fun _ => [])
      (fun _ => []) (fun l => l) []).2.2.1 ⟨["chunk"]⟩ (by simp [List.lookup])⟩

/-- C6 counterexample: the repository does register background work —
the Celery task registry is not empty and the Celery app includes the
core.tasks module. -/
theorem C6_no_scheduling_counterexample :
    ¬ (registeredBackgroundTasks = [] ∧ (celery_app none).includedModules = []) := by
  decide

/-- C6 amended: the program delegates background work to Celery: the
app is configured with the Redis broker and backend and includes
core.tasks, whose one registered task simulates document processing
and returns the document length and school id; no scheduler is
implemented in the repository itself beyond this registration. -/
theorem C6_celery_background_scheduling :
    registeredBackgroundTasks = ["process_document_task"] ∧
    (∀ env : Option String,
      (celery_app env).broker = REDIS_URL env ∧
      (celery_app env).backend = REDIS_URL env ∧
      (celery_app env).includedModules = ["core.tasks"]) ∧
    REDIS_URL none = "redis://localhost:6379/0" ∧
    (∀ (content : String) (school : Nat),
      (process_document_task content school).2 =
        ⟨10, 10, "Processing complete!", content.length, school⟩) :=
  ⟨rfl, fun _ => ⟨rfl, rfl, rfl⟩, rfl, fun _ _ => rfl⟩

end ZAD
